import Mathlib

/-!
Shallow embedding of `src/__init__.py` (the `my_url_monitor` Home Assistant
component): a periodic URL monitor.  `URLMonitorData` holds, per configured
URL, a state string, a status string and a last-updated instant;
`_check_urls` probes each URL in order and classifies the outcome;
`async_update` runs one such cycle under a 10-second `async_timeout` and then
registers a recurring interval timer; the `URLMonitor` sensor class is a
read-only projection of one index of the data.

Modelling conventions:
* datetime instants are `Nat`, with `0` standing for `datetime.min` (the
  initial sentinel) and `datetime.now()` modelled as a call `clock tick` to an
  ambient clock function at an ever-increasing tick counter;
* the network is an environment parameter: for each URL the loop reaches, a
  `ProbeOutcome` says what `session.get` did;
* the cycle-level timeout is a fuel parameter: the number of URL checks that
  complete before the surrounding task is cancelled (the cancellation lands at
  the `await` of the next URL's `session.get`); fuel at least the number of
  URLs means the timeout never fires;
* exceptions are `Option String` results: `some e` is an exception escaping
  the modelled code, `none` is normal return.
-/

namespace URLMon

/-- Model of `datetime.min`, the value `last_updated` entries start at
(line 75). -/
def datetimeMin : Nat := 0

/-- Model of `datetime.isoformat` (used at line 62): the canonical rendering
of an instant as a string. -/
def isoformat (t : Nat) : String := toString t

/-- Outcome of one `session.get(url)` call, as discriminated by the
`try`/`except` arms of `_check_urls` (lines 87-103): a response carrying a
status code (handled by the `try` body), an `aiohttp.ClientError` whose
`str(e)` is `desc`, an `asyncio.TimeoutError`, or an exception of any other
class (one matched by neither `except` clause). -/
inductive ProbeOutcome where
  | response (status : Nat)
  | clientError (desc : String)
  | timeoutErr
  | otherError (desc : String)
deriving DecidableEq, Repr

/-- The fields of `URLMonitorData` (lines 68-75), minus the `hass` handle. -/
structure URLMonitorData where
  names : List String
  urls : List String
  states : List String
  status : List String
  last_updated : List Nat
deriving DecidableEq, Repr

/-- Model of `URLMonitorData.__init__` (lines 68-75): store both configured lists
unchecked and size the three per-URL arrays by `len(urls)`. -/
def URLMonitorData.init (names urls : List String) : URLMonitorData :=
  { names := names
    urls := urls
    states := List.replicate urls.length "Unknown"
    status := List.replicate urls.length ""
    last_updated := List.replicate urls.length datetimeMin }

/-- Model of `async_setup` (lines 25-31): build the `URLMonitorData` from the two
configured lists (performing no validation), kick off the first
`async_update` task, and return `True`. -/
def asyncSetup (names urls : List String) : URLMonitorData × Bool :=
  (URLMonitorData.init names urls, true)

/-- The three per-index writes one arm of `_check_urls` performs for a URL it
finishes checking (lines 90-91 and 95, 93-94 and 95, 97-99, or 101-103):
`states[i]`, `status[i]` and `last_updated[i]` are all replaced, with no
`await` between the `states[i]`/`status[i]` pair. -/
def URLMonitorData.writeAt (d : URLMonitorData) (i : Nat) (s st : String)
    (t : Nat) : URLMonitorData :=
  { d with
    states := d.states.set i s
    status := d.status.set i st
    last_updated := d.last_updated.set i t }

/-- Classification performed by the body of the `for` loop of `_check_urls`
for one URL (lines 87-103): `.ok (state, status)` when the `try` body or one
of the two `except` arms handles the outcome, `.error e` when the raised
exception matches neither `except aiohttp.ClientError` nor
`except asyncio.TimeoutError` and therefore propagates. -/
def checkOne : ProbeOutcome → Except String (String × String)
  | .response c =>
      if c = 200 then .ok ("Online", "OK")
      else .ok ("Offline", "HTTP " ++ toString c)
  | .clientError e => .ok ("Offline", e)
  | .timeoutErr => .ok ("Offline", "Timeout")
  | .otherError e => .error e

/-- The `for i, url in enumerate(self.urls)` loop of `_check_urls`
(lines 86-103) from index `i` on.  `ocs` lists the outcome the network
delivers for each URL the loop may still reach (one entry per remaining URL),
`clock`/`tick` model successive `datetime.now()` calls, and `fuel` is the
number of further URL checks that complete before the cycle-level timeout of
`async_update` cancels the task.  Returns the updated data, the next tick,
and the exception escaping the loop if any: `"CancelledError"` for the
cycle-timeout cancellation (which `except asyncio.TimeoutError` does not
catch), or the description of an uncaught `otherError`; in both cases nothing
is written for the interrupted URL or the ones after it. -/
def checkUrlsFrom (d : URLMonitorData) (i : Nat) (ocs : List ProbeOutcome)
    (clock : Nat → Nat) (tick : Nat) (fuel : Nat) :
    URLMonitorData × Nat × Option String :=
  match ocs with
  | [] => (d, tick, none)
  | oc :: rest =>
    match fuel with
    | 0 => (d, tick, some "CancelledError")
    | fuel' + 1 =>
      match checkOne oc with
      | .ok (s, st) =>
          checkUrlsFrom (d.writeAt i s st (clock tick)) (i + 1) rest clock
            (tick + 1) fuel'
      | .error e => (d, tick, some e)

/-- Model of `_check_urls` (lines 83-103): run the loop over all URLs from index 0. -/
def checkUrls (d : URLMonitorData) (ocs : List ProbeOutcome)
    (clock : Nat → Nat) (tick fuel : Nat) :
    URLMonitorData × Nat × Option String :=
  checkUrlsFrom d 0 ocs clock tick fuel

/-- Model of `async_update` (lines 77-81): run `_check_urls` under
`async_timeout.timeout(10)`, then (line 81) call `async_track_time_interval`,
which installs one more persistent recurring interval timer; `timers` counts
the recurring timers registered so far.  When an exception escapes
`_check_urls` — the cycle-timeout cancellation, which
`async_timeout.timeout.__aexit__` converts to `asyncio.TimeoutError`, or an
uncaught probe exception — line 81 is never reached: no timer is registered
and the exception escapes `async_update`.  Returns
(data, timers, tick, escaping exception). -/
def asyncUpdate (d : URLMonitorData) (timers : Nat) (ocs : List ProbeOutcome)
    (clock : Nat → Nat) (tick fuel : Nat) :
    URLMonitorData × Nat × Nat × Option String :=
  match checkUrls d ocs clock tick fuel with
  | (d', tick', none) => (d', timers + 1, tick', none)
  | (d', tick', some e) =>
      (d', timers, tick', some (if e = "CancelledError" then "TimeoutError" else e))

/-- Whether any recurring interval timer is registered: exactly then does the
process have a future check cycle scheduled (each
`async_track_time_interval` registration keeps firing every interval for the
life of the process, whether or not its callback raised last time). -/
def scheduleActive (timers : Nat) : Prop := 0 < timers

/-- One invocation of `async_update`, as chosen by the environment: the
outcomes the network delivers this cycle and the cycle's fuel (at least the
number of URLs: the cycle-level timeout does not fire). -/
structure CycleSpec where
  ocs : List ProbeOutcome
  fuel : Nat
deriving Repr

/-- A sequence of `async_update` invocations.  Quantifying over all cycle
lists (with arbitrary per-cycle fuel) also covers every mid-cycle observation
point: the data after `k` completed checks of a cycle equals the data after a
cycle run with fuel `k`. -/
def runCycles (d : URLMonitorData) (timers : Nat) (clock : Nat → Nat)
    (tick : Nat) : List CycleSpec → URLMonitorData × Nat × Nat
  | [] => (d, timers, tick)
  | c :: cs =>
    let r := asyncUpdate d timers c.ocs clock tick c.fuel
    runCycles r.1 r.2.1 clock r.2.2.1 cs

/-- Model of the `URLMonitor.name` property (lines 41-44): positional label, one-based; the data
record (the source's `self._data`) is not consulted. -/
def URLMonitor.name (_d : URLMonitorData) (i : Nat) : String :=
  "URL Monitor " ++ toString (i + 1)

/-- Model of the `URLMonitor.state` property (lines 46-49). -/
def URLMonitor.state (d : URLMonitorData) (i : Nat) : String :=
  d.states.getD i ""

/-- Model of the `URLMonitor.icon` property (lines 51-54). -/
def URLMonitor.icon (d : URLMonitorData) (i : Nat) : String :=
  if d.states.getD i "" = "Online" then "mdi:link" else "mdi:link-off"

/-- Model of the `URLMonitor.extra_state_attributes` property (lines 56-63). -/
def URLMonitor.extra_state_attributes (d : URLMonitorData) (i : Nat) :
    List (String × String) :=
  [("URL", d.urls.getD i ""),
   ("Status", d.status.getD i ""),
   ("Last Updated", isoformat (d.last_updated.getD i datetimeMin))]

/-! ### Module top level (for the import-time behaviour)

Python executes a module's top-level statements in order at import time; an
expression that loads a name that is neither already bound in the module nor
a builtin raises `NameError` and aborts the import. -/

/-- One top-level statement: the names its execution loads, in evaluation
order, and the names it binds on success. -/
structure PyStmt where
  loads : List String
  binds : List String
deriving Repr

/-- Names the Python builtins provide to `src/__init__.py`. -/
def pythonBuiltins : List String :=
  ["__name__", "property", "str", "int", "bool", "len", "enumerate", "range"]

/-- The top-level statements of `src/__init__.py`, in source order.
Lines 1-12 are imports; line 14 binds `_LOGGER`; line 16 binds `DOMAIN`;
lines 18-23 evaluate the `CONFIG_SCHEMA` dict display, whose loads are listed
in Python's evaluation order (outer key `DOMAIN`, then for each inner entry
the key expression `vol.Required(CONF_...)` followed by the value expression
`vol.All(cv.ensure_list, [cv...])`); lines 25-31 define `async_setup`
(evaluating its annotations); lines 33-63 and 65-108 execute the two class
bodies. -/
def moduleStmts : List PyStmt :=
  [⟨[], ["asyncio"]⟩,
   ⟨[], ["logging"]⟩,
   ⟨[], ["datetime", "timedelta"]⟩,
   ⟨[], ["Any", "Callable", "Dict", "List", "Optional"]⟩,
   ⟨[], ["async_timeout"]⟩,
   ⟨[], ["aiohttp"]⟩,
   ⟨[], ["SensorEntity"]⟩,
   ⟨[], ["ConfigEntry"]⟩,
   ⟨[], ["CONF_NAME", "CONF_URL"]⟩,
   ⟨[], ["HomeAssistant"]⟩,
   ⟨[], ["async_track_time_interval"]⟩,
   ⟨["logging", "__name__"], ["_LOGGER"]⟩,
   ⟨[], ["DOMAIN"]⟩,
   ⟨["DOMAIN", "vol", "CONF_NAME", "vol", "cv", "cv",
     "vol", "CONF_URL", "vol", "cv", "cv"], ["CONFIG_SCHEMA"]⟩,
   ⟨["HomeAssistant", "Dict", "str", "Any", "bool"], ["async_setup"]⟩,
   ⟨["SensorEntity", "property", "str", "int", "Dict", "Any"], ["URLMonitor"]⟩,
   ⟨["HomeAssistant", "List", "str", "property"], ["URLMonitorData"]⟩]

/-- First name of `loads` that is neither in `env` nor a builtin: the name a
`NameError` would report. -/
def firstUnbound (env loads : List String) : Option String :=
  loads.find? fun n => !(env.contains n || pythonBuiltins.contains n)

/-- Execute the module top level from environment `env`: statements run in
order; the first unbound load raises `NameError` and stops execution.
Returns the environment reached together with the offending name, if any. -/
def evalModule : List String → List PyStmt → List String × Option String
  | env, [] => (env, none)
  | env, s :: rest =>
    match firstUnbound env s.loads with
    | some n => (env, some n)
    | none => evalModule (env ++ s.binds) rest

/-! ### Shared list lemmas -/

theorem getD_set_self {α : Type} (l : List α) (i : Nat) (a dflt : α)
    (h : i < l.length) : (l.set i a).getD i dflt = a := by
  rw [List.getD_eq_getElem?_getD, List.getElem?_set_eq_of_lt a h]; rfl

theorem getD_set_ne {α : Type} (l : List α) (i j : Nat) (a dflt : α)
    (h : i ≠ j) : (l.set i a).getD j dflt = l.getD j dflt := by
  rw [List.getD_eq_getElem?_getD, List.getElem?_set_ne h,
    ← List.getD_eq_getElem?_getD]

theorem getD_replicate_lt {α : Type} (n i : Nat) (a dflt : α) (h : i < n) :
    (List.replicate n a).getD i dflt = a := by
  rw [List.getD_eq_getElem?_getD]; simp [List.getElem?_replicate, h]

/-! ### C10: the module cannot even be imported -/

/-- C10: the `CONFIG_SCHEMA` expression (lines 18-23) loads the names `vol`
and `cv`, which no statement of the module binds; executing the module's top
level therefore raises `NameError` (on `vol`, the first unbound load), before
`async_setup` — and a fortiori any monitoring — is even defined. -/
theorem module_import_raises_name_error :
    (evalModule [] moduleStmts).2 = some "vol" ∧
    (∃ s ∈ moduleStmts, "vol" ∈ s.loads ∧ "cv" ∈ s.loads ∧
      "CONFIG_SCHEMA" ∈ s.binds) ∧
    (∀ s ∈ moduleStmts, "vol" ∉ s.binds ∧ "cv" ∉ s.binds) ∧
    "async_setup" ∉ (evalModule [] moduleStmts).1 := by decide

/-! ### C2: probe outcome classification -/

/-- C2: the per-URL body of `_check_urls` classifies every probe outcome as
the spec states: HTTP 200 ↦ Online/"OK"; any other status `c` ↦
Offline/"HTTP c"; a connection error ↦ Offline with the error's description;
a timeout ↦ Offline/"Timeout". -/
theorem probe_classification (c : Nat) (hc : c ≠ 200) (e : String) :
    checkOne (.response 200) = .ok ("Online", "OK") ∧
    checkOne (.response c) = .ok ("Offline", "HTTP " ++ toString c) ∧
    checkOne (.clientError e) = .ok ("Offline", e) ∧
    checkOne .timeoutErr = .ok ("Offline", "Timeout") := by
  refine ⟨rfl, ?_, rfl, rfl⟩
  simp [checkOne, hc]

/-- Witness for `probe_classification` at status code 404 and a concrete
connection-error description. -/
theorem probe_classification_witness :
    checkOne (.response 200) = .ok ("Online", "OK") ∧
    checkOne (.response 404) = .ok ("Offline", "HTTP " ++ toString 404) ∧
    checkOne (.clientError "Cannot connect to host") =
      .ok ("Offline", "Cannot connect to host") ∧
    checkOne .timeoutErr = .ok ("Offline", "Timeout") :=
  probe_classification 404 (by decide) "Cannot connect to host"

/-! ### C5: no length validation at construction -/

/-- C5 counterexample: constructing with 2 names and 3 urls is not rejected:
`async_setup` returns `True` and a monitor is created (its per-URL arrays
sized by the urls list), although the list lengths differ. -/
theorem mismatched_lists_accepted :
    ["A", "B"].length ≠ ["u1", "u2", "u3"].length ∧
    asyncSetup ["A", "B"] ["u1", "u2", "u3"] =
      (URLMonitorData.init ["A", "B"] ["u1", "u2", "u3"], true) ∧
    (asyncSetup ["A", "B"] ["u1", "u2", "u3"]).2 = true ∧
    (asyncSetup ["A", "B"] ["u1", "u2", "u3"]).1.states.length = 3 := by
  decide

/-- C5 amended: neither `URLMonitorData.__init__` nor `async_setup` checks
the two configured lists against each other: setup succeeds for every pair of
lists, stores both verbatim, and sizes the per-URL state arrays by the urls
list alone. -/
theorem setup_accepts_any_lengths (names urls : List String) :
    (asyncSetup names urls).2 = true ∧
    (asyncSetup names urls).1.names = names ∧
    (asyncSetup names urls).1.urls = urls ∧
    (asyncSetup names urls).1.states.length = urls.length ∧
    (asyncSetup names urls).1.status.length = urls.length ∧
    (asyncSetup names urls).1.last_updated.length = urls.length := by
  refine ⟨rfl, rfl, rfl, ?_, ?_, ?_⟩ <;>
    simp [asyncSetup, URLMonitorData.init]

/-! ### C9: configured display names are stored but never read -/

/-- C9: the sensor's display name is exactly `"URL Monitor "` followed by
`i + 1`, and no accessor output (name, state, icon, attributes) changes when
the configured names list is replaced by any other list; the names are
nevertheless stored at construction. -/
theorem display_names_unused (d : URLMonitorData) (ns : List String)
    (i : Nat) :
    URLMonitor.name d i = "URL Monitor " ++ toString (i + 1) ∧
    URLMonitor.name { d with names := ns } i = URLMonitor.name d i ∧
    URLMonitor.state { d with names := ns } i = URLMonitor.state d i ∧
    URLMonitor.icon { d with names := ns } i = URLMonitor.icon d i ∧
    URLMonitor.extra_state_attributes { d with names := ns } i =
      URLMonitor.extra_state_attributes d i ∧
    (URLMonitorData.init ns d.urls).names = ns :=
  ⟨rfl, rfl, rfl, rfl, rfl, rfl⟩

/-! ### C4: which exceptions escape the per-URL check -/

/-- C4 counterexample: an exception of a class other than
`aiohttp.ClientError` and `asyncio.TimeoutError`, raised during a URL's
check, escapes `_check_urls` — the claim that no exception propagates for
"any other error during the check" is false.  Here one URL's check raises a
`ValueError`; the loop aborts, the exception propagates, and nothing is
recorded for the URL (its record is still the initial one). -/
theorem uncaught_exception_escapes_probe :
    (checkUrls (URLMonitorData.init ["A"] ["http://a"])
        [.otherError "ValueError: bad"] (fun _ => 5) 0 9).2.2 =
      some "ValueError: bad" ∧
    (checkUrls (URLMonitorData.init ["A"] ["http://a"])
        [.otherError "ValueError: bad"] (fun _ => 5) 0 9).1 =
      URLMonitorData.init ["A"] ["http://a"] := by
  decide

/-- C4 amended: the per-URL check converts exactly the handled failure modes —
any HTTP response, any `aiohttp.ClientError`, and `asyncio.TimeoutError` —
into terminal classifications that are written to the state store without
propagating; an exception of any other class propagates uncaught out of the
per-URL check. -/
theorem probe_error_handling (c : Nat) (e f : String) (d : URLMonitorData)
    (i tick fuel : Nat) (clock : Nat → Nat) (rest : List ProbeOutcome)
    (oc : ProbeOutcome) (s st : String) (hok : checkOne oc = .ok (s, st)) :
    (∃ p, checkOne (.response c) = .ok p) ∧
    checkOne (.clientError e) = .ok ("Offline", e) ∧
    checkOne .timeoutErr = .ok ("Offline", "Timeout") ∧
    checkOne (.otherError f) = .error f ∧
    checkUrlsFrom d i (oc :: rest) clock tick (fuel + 1) =
      checkUrlsFrom (d.writeAt i s st (clock tick)) (i + 1) rest clock
        (tick + 1) fuel := by
  refine ⟨?_, rfl, rfl, rfl, ?_⟩
  · by_cases h : c = 200
    · exact ⟨("Online", "OK"), by simp [checkOne, h]⟩
    · exact ⟨("Offline", "HTTP " ++ toString c), by simp [checkOne, h]⟩
  · simp [checkUrlsFrom, hok]

/-- Witness for `probe_error_handling`: a concrete timeout outcome written
into a one-URL store. -/
theorem probe_error_handling_witness :
    (∃ p, checkOne (.response 404) = .ok p) ∧
    checkOne (.clientError "refused") = .ok ("Offline", "refused") ∧
    checkOne .timeoutErr = .ok ("Offline", "Timeout") ∧
    checkOne (.otherError "KeyError") = .error "KeyError" ∧
    checkUrlsFrom (URLMonitorData.init ["A"] ["http://a"]) 0 [.timeoutErr]
        (fun _ => 1) 0 (2 + 1) =
      checkUrlsFrom
        ((URLMonitorData.init ["A"] ["http://a"]).writeAt 0 "Offline"
          "Timeout" ((fun _ => 1) 0)) (0 + 1) [] (fun _ => 1) (0 + 1) 2 :=
  probe_error_handling 404 "refused" "KeyError"
    (URLMonitorData.init ["A"] ["http://a"]) 0 0 2 (fun _ => 1) []
    .timeoutErr "Offline" "Timeout" rfl

/-! ### C1: what survives a cycle-level timeout -/

/-- If the fuel runs out before the URL list does, the loop ends with an
exception escaping (the cancellation, or an earlier uncaught error): it does
not return normally. -/
theorem checkUrlsFrom_isSome_of_fuel_lt (ocs : List ProbeOutcome)
    (d : URLMonitorData) (i : Nat) (clock : Nat → Nat) (tick fuel : Nat)
    (h : fuel < ocs.length) :
    (checkUrlsFrom d i ocs clock tick fuel).2.2.isSome := by
  induction ocs generalizing d i tick fuel with
  | nil => simp at h
  | cons oc rest ih =>
    cases fuel with
    | zero => simp [checkUrlsFrom]
    | succ f =>
      simp only [checkUrlsFrom]
      cases hoc : checkOne oc with
      | ok p =>
        obtain ⟨s, st⟩ := p
        exact ih _ _ _ _ (by simpa using Nat.lt_of_succ_lt_succ (by simpa using h))
      | error e => simp

/-- Registered timers are never removed: `async_update` never removes a registered timer. -/
theorem asyncUpdate_timers_le (d : URLMonitorData) (timers : Nat)
    (ocs : List ProbeOutcome) (clock : Nat → Nat) (tick fuel : Nat) :
    timers ≤ (asyncUpdate d timers ocs clock tick fuel).2.1 := by
  unfold asyncUpdate
  rcases checkUrls d ocs clock tick fuel with ⟨d', tick', exc⟩
  cases exc <;> simp

/-- When an exception escapes `_check_urls`, line 81 is skipped: the cycle
registers no timer. -/
theorem asyncUpdate_timers_eq_of_isSome (d : URLMonitorData) (timers : Nat)
    (ocs : List ProbeOutcome) (clock : Nat → Nat) (tick fuel : Nat)
    (h : (checkUrls d ocs clock tick fuel).2.2.isSome) :
    (asyncUpdate d timers ocs clock tick fuel).2.1 = timers := by
  unfold asyncUpdate
  rcases hq : checkUrls d ocs clock tick fuel with ⟨d', tick', exc⟩
  rw [hq] at h
  cases exc with
  | none => simp at h
  | some e => simp

/-- Registered timers only accumulate across any sequence of cycles. -/
theorem runCycles_timers_le (cs : List CycleSpec) (d : URLMonitorData)
    (timers : Nat) (clock : Nat → Nat) (tick : Nat) :
    timers ≤ (runCycles d timers clock tick cs).2.1 := by
  induction cs generalizing d timers tick with
  | nil => exact Nat.le_refl _
  | cons c cs ih =>
    simp only [runCycles]
    exact Nat.le_trans (asyncUpdate_timers_le d timers c.ocs clock tick c.fuel)
      (ih _ _ _)

/-- C1 counterexample: the recurring schedule does not survive every
cycle-level timeout.  `async_track_time_interval` is only called at line 81,
after the `async_timeout` block; when the very first cycle (the task created
by `async_setup`) is aborted by the cycle-level timeout, the raised
`TimeoutError` skips line 81, no recurring timer has ever been registered,
and no future cycle is scheduled or run. -/
theorem first_cycle_timeout_kills_schedule :
    (asyncUpdate (URLMonitorData.init ["A"] ["http://a"]) 0 [.response 200]
        (fun _ => 1) 0 0).2.2.2 = some "TimeoutError" ∧
    (asyncUpdate (URLMonitorData.init ["A"] ["http://a"]) 0 [.response 200]
        (fun _ => 1) 0 0).2.1 = 0 ∧
    ¬ scheduleActive (asyncUpdate (URLMonitorData.init ["A"] ["http://a"]) 0
        [.response 200] (fun _ => 1) 0 0).2.1 :=
  ⟨rfl, rfl, fun h => Nat.lt_irrefl 0 h⟩

/-- C1 amended: a cycle-level timeout aborts the cycle and skips that cycle's
timer registration, but cancels no previously registered timer: a cycle that
times out leaves the timer count unchanged, and once at least one cycle has
completed and registered its recurring timer, the schedule stays active
across any further sequence of cycles, timeouts included.  (If the timeout
aborts the very first cycle, no timer was ever registered and no future cycle
runs.) -/
theorem schedule_persistence (d : URLMonitorData) (timers tick : Nat)
    (clock : Nat → Nat) (cs : List CycleSpec) (ocs : List ProbeOutcome)
    (fuel : Nat) (hto : fuel < ocs.length) (h : scheduleActive timers) :
    (asyncUpdate d timers ocs clock tick fuel).2.1 = timers ∧
    scheduleActive (runCycles d timers clock tick cs).2.1 := by
  constructor
  · exact asyncUpdate_timers_eq_of_isSome d timers ocs clock tick fuel
      (checkUrlsFrom_isSome_of_fuel_lt ocs d 0 clock tick fuel hto)
  · have hle := runCycles_timers_le cs d timers clock tick
    unfold scheduleActive at h ⊢
    omega

/-- Witness for `schedule_persistence`: one timer already registered, a
timed-out cycle, then a normal cycle. -/
theorem schedule_persistence_witness :
    (asyncUpdate (URLMonitorData.init ["A"] ["http://a"]) 1 [.timeoutErr]
        (fun n => n) 0 0).2.1 = 1 ∧
    scheduleActive (runCycles (URLMonitorData.init ["A"] ["http://a"]) 1
        (fun n => n) 0 [⟨[.timeoutErr], 0⟩, ⟨[.response 200], 5⟩]).2.1 :=
  schedule_persistence (URLMonitorData.init ["A"] ["http://a"]) 1 0
    (fun n => n) [⟨[.timeoutErr], 0⟩, ⟨[.response 200], 5⟩] [.timeoutErr] 0
    (by decide) Nat.one_pos

/-! ### The check loop: frame, completion and per-index writes -/

/-- The loop never resizes the three per-URL arrays. -/
theorem checkUrlsFrom_lengths (ocs : List ProbeOutcome) (d : URLMonitorData)
    (i : Nat) (clock : Nat → Nat) (tick fuel : Nat) :
    (checkUrlsFrom d i ocs clock tick fuel).1.states.length =
        d.states.length ∧
      (checkUrlsFrom d i ocs clock tick fuel).1.status.length =
        d.status.length ∧
      (checkUrlsFrom d i ocs clock tick fuel).1.last_updated.length =
        d.last_updated.length := by
  induction ocs generalizing d i tick fuel with
  | nil => simp [checkUrlsFrom]
  | cons oc rest ih =>
    cases fuel with
    | zero => simp [checkUrlsFrom]
    | succ f =>
      simp only [checkUrlsFrom]
      cases hoc : checkOne oc with
      | ok p =>
        obtain ⟨s, st⟩ := p
        have := ih (d.writeAt i s st (clock tick)) (i + 1) (tick + 1) f
        simpa [URLMonitorData.writeAt] using this
      | error e => simp

/-- Frame property of the loop: an index outside `[i, i + fuel)` — below the
start, or beyond what the fuel allows to complete — is never written. -/
theorem checkUrlsFrom_frame (ocs : List ProbeOutcome) (d : URLMonitorData)
    (i : Nat) (clock : Nat → Nat) (tick fuel j : Nat)
    (hj : j < i ∨ i + fuel ≤ j) :
    (checkUrlsFrom d i ocs clock tick fuel).1.states.getD j "" =
        d.states.getD j "" ∧
      (checkUrlsFrom d i ocs clock tick fuel).1.status.getD j "" =
        d.status.getD j "" ∧
      (checkUrlsFrom d i ocs clock tick fuel).1.last_updated.getD j 0 =
        d.last_updated.getD j 0 := by
  induction ocs generalizing d i tick fuel with
  | nil => simp [checkUrlsFrom]
  | cons oc rest ih =>
    cases fuel with
    | zero => simp [checkUrlsFrom]
    | succ f =>
      simp only [checkUrlsFrom]
      cases hoc : checkOne oc with
      | ok p =>
        obtain ⟨s, st⟩ := p
        have hne : i ≠ j := by omega
        have hrec := ih (d.writeAt i s st (clock tick)) (i + 1) (tick + 1) f
          (by omega)
        simp only [URLMonitorData.writeAt] at hrec
        rw [getD_set_ne d.states i j s "" hne,
          getD_set_ne d.status i j st "" hne,
          getD_set_ne d.last_updated i j (clock tick) 0 hne] at hrec
        exact hrec
      | error e => simp

/-- With enough fuel and only handled outcomes, the loop returns normally. -/
theorem checkUrlsFrom_completes (ocs : List ProbeOutcome)
    (d : URLMonitorData) (i : Nat) (clock : Nat → Nat) (tick fuel : Nat)
    (hfuel : ocs.length ≤ fuel)
    (hok : ∀ oc ∈ ocs, ∃ p, checkOne oc = .ok p) :
    (checkUrlsFrom d i ocs clock tick fuel).2.2 = none := by
  induction ocs generalizing d i tick fuel with
  | nil => simp [checkUrlsFrom]
  | cons oc rest ih =>
    cases fuel with
    | zero => simp at hfuel
    | succ f =>
      simp only [checkUrlsFrom]
      obtain ⟨⟨s, st⟩, hoc⟩ := hok oc (List.mem_cons_self oc rest)
      rw [hoc]
      exact ih _ _ _ _ (by simpa using hfuel)
        fun o ho => hok o (List.mem_cons_of_mem oc ho)

/-- When the fuel runs out strictly inside the URL list and every completed
check was a handled outcome, what escapes the loop is exactly the
cancellation of the cycle-level timeout. -/
theorem checkUrlsFrom_cancelled (ocs : List ProbeOutcome)
    (d : URLMonitorData) (i : Nat) (clock : Nat → Nat) (tick fuel : Nat)
    (hfuel : fuel < ocs.length)
    (hok : ∀ oc ∈ ocs.take fuel, ∃ p, checkOne oc = .ok p) :
    (checkUrlsFrom d i ocs clock tick fuel).2.2 = some "CancelledError" := by
  induction ocs generalizing d i tick fuel with
  | nil => simp at hfuel
  | cons oc rest ih =>
    cases fuel with
    | zero => simp [checkUrlsFrom]
    | succ f =>
      simp only [checkUrlsFrom]
      obtain ⟨⟨s, st⟩, hoc⟩ := hok oc (by simp)
      rw [hoc]
      refine ih _ _ _ _ (by simpa using hfuel) fun o ho => hok o ?_
      simp [List.take_succ_cons]
      exact Or.inr ho

/-- With enough fuel and only handled outcomes, the loop writes, at offset
`j`, exactly the classification of the `j`-th outcome, timestamped with the
`j`-th clock reading of the cycle. -/
theorem checkUrlsFrom_writes (ocs : List ProbeOutcome) (d : URLMonitorData)
    (i : Nat) (clock : Nat → Nat) (tick fuel : Nat)
    (hfuel : ocs.length ≤ fuel)
    (hok : ∀ oc ∈ ocs, ∃ p, checkOne oc = .ok p)
    (hlen : i + ocs.length ≤ d.states.length ∧
      i + ocs.length ≤ d.status.length ∧
      i + ocs.length ≤ d.last_updated.length)
    (j : Nat) (hj : j < ocs.length) :
    ∃ s st, checkOne (ocs.getD j .timeoutErr) = .ok (s, st) ∧
      (checkUrlsFrom d i ocs clock tick fuel).1.states.getD (i + j) "" = s ∧
      (checkUrlsFrom d i ocs clock tick fuel).1.status.getD (i + j) "" = st ∧
      (checkUrlsFrom d i ocs clock tick fuel).1.last_updated.getD (i + j) 0 =
        clock (tick + j) := by
  induction ocs generalizing d i tick fuel j with
  | nil => simp at hj
  | cons oc rest ih =>
    cases fuel with
    | zero => simp at hfuel
    | succ f =>
      simp only [checkUrlsFrom]
      obtain ⟨⟨s, st⟩, hoc⟩ := hok oc (List.mem_cons_self oc rest)
      rw [hoc]
      cases j with
      | zero =>
        obtain ⟨hf1, hf2, hf3⟩ := checkUrlsFrom_frame rest
          (d.writeAt i s st (clock tick)) (i + 1) clock (tick + 1) f i
          (by omega)
        have h1 : (d.writeAt i s st (clock tick)).states.getD i "" = s :=
          getD_set_self d.states i s "" (by simp at hlen; omega)
        have h2 : (d.writeAt i s st (clock tick)).status.getD i "" = st :=
          getD_set_self d.status i st "" (by simp at hlen; omega)
        have h3 : (d.writeAt i s st (clock tick)).last_updated.getD i 0 =
            clock tick :=
          getD_set_self d.last_updated i (clock tick) 0 (by simp at hlen; omega)
        exact ⟨s, st, by simpa using hoc, hf1.trans h1, hf2.trans h2,
          hf3.trans h3⟩
      | succ j' =>
        have hrec := ih (d.writeAt i s st (clock tick)) (i + 1) (tick + 1) f
          (by simpa using hfuel)
          (fun o ho => hok o (List.mem_cons_of_mem oc ho))
          (by simp [URLMonitorData.writeAt]; simp at hlen; omega)
          j' (by simpa using hj)
        obtain ⟨s', st', hoc', h1, h2, h3⟩ := hrec
        refine ⟨s', st', by simpa using hoc', ?_, ?_, ?_⟩
        · have : i + (j' + 1) = (i + 1) + j' := by omega
          rw [this]; exact h1
        · have : i + (j' + 1) = (i + 1) + j' := by omega
          rw [this]; exact h2
        · have e1 : i + (j' + 1) = (i + 1) + j' := by omega
          have e2 : tick + (j' + 1) = (tick + 1) + j' := by omega
          rw [e1, e2]; exact h3

/-- C3: if the cycle-level timeout fires after `k` of the targets have been
checked (those `k` checks having handled outcomes), then the cycle is aborted
by the cancellation, every target of index `j ≥ k` keeps exactly its previous
state, status and last_updated — nothing new is written to it in that cycle —
and the next cycle, which iterates from index 0 again, attempts target `j`
afresh: run without a timeout and with handled outcomes, it writes `j` the
classification of `j`'s new outcome. -/
theorem cycle_timeout_frame (d : URLMonitorData)
    (ocs ocs' : List ProbeOutcome) (clock : Nat → Nat)
    (tick tick' fuel' k j : Nat) (hk : k < ocs.length) (hkj : k ≤ j)
    (hok : ∀ oc ∈ ocs.take k, ∃ p, checkOne oc = .ok p)
    (hok' : ∀ oc ∈ ocs', ∃ p, checkOne oc = .ok p)
    (hfuel' : ocs'.length ≤ fuel') (hj' : j < ocs'.length)
    (hlen : ocs'.length ≤ d.states.length ∧ ocs'.length ≤ d.status.length ∧
      ocs'.length ≤ d.last_updated.length) :
    ((checkUrls d ocs clock tick k).1.states.getD j "" =
        d.states.getD j "" ∧
      (checkUrls d ocs clock tick k).1.status.getD j "" =
        d.status.getD j "" ∧
      (checkUrls d ocs clock tick k).1.last_updated.getD j 0 =
        d.last_updated.getD j 0) ∧
    (checkUrls d ocs clock tick k).2.2 = some "CancelledError" ∧
    (∃ s st, checkOne (ocs'.getD j .timeoutErr) = .ok (s, st) ∧
      (checkUrls (checkUrls d ocs clock tick k).1 ocs' clock tick'
          fuel').1.states.getD j "" = s ∧
      (checkUrls (checkUrls d ocs clock tick k).1 ocs' clock tick'
          fuel').1.status.getD j "" = st ∧
      (checkUrls (checkUrls d ocs clock tick k).1 ocs' clock tick'
          fuel').1.last_updated.getD j 0 = clock (tick' + j)) := by
  simp only [checkUrls]
  obtain ⟨hl1, hl2, hl3⟩ := checkUrlsFrom_lengths ocs d 0 clock tick k
  refine ⟨checkUrlsFrom_frame ocs d 0 clock tick k j (Or.inr (by omega)),
    checkUrlsFrom_cancelled ocs d 0 clock tick k hk hok, ?_⟩
  have hw := checkUrlsFrom_writes ocs'
    (checkUrlsFrom d 0 ocs clock tick k).1 0 clock tick' fuel' hfuel' hok'
    ⟨by rw [hl1]; omega, by rw [hl2]; omega, by rw [hl3]; omega⟩ j hj'
  simpa using hw

/-- Witness for `cycle_timeout_frame`: three targets, a cycle whose timeout
fires after checking the first two, then a full second cycle. -/
theorem cycle_timeout_frame_witness :
    ((checkUrls (URLMonitorData.init ["A", "B", "C"] ["u1", "u2", "u3"])
        [.response 200, .timeoutErr, .response 500] (fun n => n) 0
        2).1.states.getD 2 "" =
      (URLMonitorData.init ["A", "B", "C"] ["u1", "u2", "u3"]).states.getD
        2 "" ∧
      (checkUrls (URLMonitorData.init ["A", "B", "C"] ["u1", "u2", "u3"])
        [.response 200, .timeoutErr, .response 500] (fun n => n) 0
        2).1.status.getD 2 "" =
      (URLMonitorData.init ["A", "B", "C"] ["u1", "u2", "u3"]).status.getD
        2 "" ∧
      (checkUrls (URLMonitorData.init ["A", "B", "C"] ["u1", "u2", "u3"])
        [.response 200, .timeoutErr, .response 500] (fun n => n) 0
        2).1.last_updated.getD 2 0 =
      (URLMonitorData.init ["A", "B", "C"]
        ["u1", "u2", "u3"]).last_updated.getD 2 0) ∧
    (checkUrls (URLMonitorData.init ["A", "B", "C"] ["u1", "u2", "u3"])
      [.response 200, .timeoutErr, .response 500] (fun n => n) 0 2).2.2 =
      some "CancelledError" ∧
    (∃ s st,
      checkOne ([ProbeOutcome.response 200, .response 200,
        .response 404].getD 2 .timeoutErr) = .ok (s, st) ∧
      (checkUrls (checkUrls (URLMonitorData.init ["A", "B", "C"]
          ["u1", "u2", "u3"]) [.response 200, .timeoutErr, .response 500]
          (fun n => n) 0 2).1
        [.response 200, .response 200, .response 404] (fun n => n) 7
        3).1.states.getD 2 "" = s ∧
      (checkUrls (checkUrls (URLMonitorData.init ["A", "B", "C"]
          ["u1", "u2", "u3"]) [.response 200, .timeoutErr, .response 500]
          (fun n => n) 0 2).1
        [.response 200, .response 200, .response 404] (fun n => n) 7
        3).1.status.getD 2 "" = st ∧
      (checkUrls (checkUrls (URLMonitorData.init ["A", "B", "C"]
          ["u1", "u2", "u3"]) [.response 200, .timeoutErr, .response 500]
          (fun n => n) 0 2).1
        [.response 200, .response 200, .response 404] (fun n => n) 7
        3).1.last_updated.getD 2 0 = (fun n => n) (7 + 2)) :=
  cycle_timeout_frame
    (URLMonitorData.init ["A", "B", "C"] ["u1", "u2", "u3"])
    [.response 200, .timeoutErr, .response 500]
    [.response 200, .response 200, .response 404] (fun n => n) 0 7 3 2 2
    (by decide) (by decide)
    (by intro oc hoc
        simp only [List.take, List.mem_cons, List.not_mem_nil, or_false]
          at hoc
        rcases hoc with h | h <;> subst h <;> exact ⟨_, rfl⟩)
    (by intro oc hoc
        simp only [List.mem_cons, List.not_mem_nil, or_false] at hoc
        rcases hoc with h | h | h <;> subst h <;> exact ⟨_, rfl⟩)
    (by decide) (by decide) (by decide)

/-! ### C6: state/status consistency -/

theorem getD_set {α : Type} (l : List α) (i j : Nat) (a dflt : α) :
    (l.set i a).getD j dflt =
      if i = j ∧ j < l.length then a else l.getD j dflt := by
  by_cases hij : i = j
  · subst hij
    by_cases hlt : i < l.length
    · simp [getD_set_self l i a dflt hlt, hlt]
    · rw [List.set_eq_of_length_le (by omega)]
      simp [hlt]
  · simp [getD_set_ne l i j a dflt hij, hij]

theorem getD_replicate_eq_ite {α : Type} (n j : Nat) (a dflt : α) :
    (List.replicate n a).getD j dflt = if j < n then a else dflt := by
  by_cases h : j < n
  · simp [getD_replicate_lt n j a dflt h, h]
  · rw [List.getD_eq_getElem?_getD, List.getElem?_eq_none (by simpa using h)]
    simp [h]

/-- A property of (state, status) pairs that holds of the initial record and
of the classification of every delivered outcome holds at every index after
the loop: the two fields are only ever written together, from a
classification. -/
theorem checkUrlsFrom_pair_preserve (P : String → String → Prop)
    (ocs : List ProbeOutcome) (d : URLMonitorData) (i : Nat)
    (clock : Nat → Nat) (tick fuel : Nat)
    (hocs : ∀ oc ∈ ocs, ∀ s st, checkOne oc = .ok (s, st) → P s st)
    (hlen : d.states.length = d.status.length)
    (hinv : ∀ j, P (d.states.getD j "") (d.status.getD j "")) :
    ∀ j, P ((checkUrlsFrom d i ocs clock tick fuel).1.states.getD j "")
      ((checkUrlsFrom d i ocs clock tick fuel).1.status.getD j "") := by
  induction ocs generalizing d i tick fuel with
  | nil => simpa [checkUrlsFrom] using hinv
  | cons oc rest ih =>
    cases fuel with
    | zero => simpa [checkUrlsFrom] using hinv
    | succ f =>
      simp only [checkUrlsFrom]
      cases hoc : checkOne oc with
      | ok p =>
        obtain ⟨s, st⟩ := p
        apply ih _ (i + 1) (tick + 1) f
          (fun o ho => hocs o (List.mem_cons_of_mem oc ho))
        · simp [URLMonitorData.writeAt, hlen]
        · intro j
          simp only [URLMonitorData.writeAt]
          rw [getD_set, getD_set, hlen]
          by_cases hc : i = j ∧ j < d.status.length
          · rw [if_pos hc, if_pos hc]
            exact hocs oc (List.mem_cons_self oc rest) s st hoc
          · rw [if_neg hc, if_neg hc]
            exact hinv j
      | error e => simpa using hinv

/-- Data flow: `async_update` hands back exactly the data and tick `_check_urls`
produced, whether or not an exception escaped. -/
theorem asyncUpdate_data_tick (d : URLMonitorData) (timers : Nat)
    (ocs : List ProbeOutcome) (clock : Nat → Nat) (tick fuel : Nat) :
    (asyncUpdate d timers ocs clock tick fuel).1 =
        (checkUrls d ocs clock tick fuel).1 ∧
      (asyncUpdate d timers ocs clock tick fuel).2.2.1 =
        (checkUrls d ocs clock tick fuel).2.1 := by
  unfold asyncUpdate
  rcases checkUrls d ocs clock tick fuel with ⟨d', tick', exc⟩
  cases exc <;> simp

/-- Lift of `checkUrlsFrom_pair_preserve` to whole cycle sequences. -/
theorem runCycles_pair_preserve (P : String → String → Prop)
    (cs : List CycleSpec) (d : URLMonitorData) (timers : Nat)
    (clock : Nat → Nat) (tick : Nat)
    (hocs : ∀ c ∈ cs, ∀ oc ∈ c.ocs, ∀ s st, checkOne oc = .ok (s, st) →
      P s st)
    (hlen : d.states.length = d.status.length)
    (hinv : ∀ j, P (d.states.getD j "") (d.status.getD j "")) :
    ∀ j, P ((runCycles d timers clock tick cs).1.states.getD j "")
      ((runCycles d timers clock tick cs).1.status.getD j "") := by
  induction cs generalizing d timers tick with
  | nil => simpa [runCycles] using hinv
  | cons c cs ih =>
    simp only [runCycles]
    obtain ⟨hdata, -⟩ :=
      asyncUpdate_data_tick d timers c.ocs clock tick c.fuel
    obtain ⟨hl1, hl2, -⟩ := checkUrlsFrom_lengths c.ocs d 0 clock tick c.fuel
    apply ih _ _ _
      (fun c' hc' => hocs c' (List.mem_cons_of_mem c hc'))
    · rw [hdata]
      simp only [checkUrls]
      rw [hl1, hl2]
      exact hlen
    · intro j
      rw [hdata]
      exact checkUrlsFrom_pair_preserve P c.ocs d 0 clock tick c.fuel
        (hocs c (List.mem_cons_self c cs)) hlen hinv j

/-- Every classification pairs `"Online"` with `"OK"`. -/
theorem checkOne_online_imp (oc : ProbeOutcome) (s st : String)
    (h : checkOne oc = .ok (s, st)) : s = "Online" → st = "OK" := by
  cases oc with
  | response c =>
    by_cases hc : c = 200
    · simp [checkOne, hc] at h
      obtain ⟨h1, h2⟩ := h
      subst h1; subst h2
      intro; rfl
    · simp [checkOne, hc] at h
      obtain ⟨h1, h2⟩ := h
      subst h1
      intro hs; exact absurd hs (by decide)
  | clientError e =>
    simp [checkOne] at h
    obtain ⟨h1, h2⟩ := h
    subst h1
    intro hs; exact absurd hs (by decide)
  | timeoutErr =>
    simp [checkOne] at h
    obtain ⟨h1, h2⟩ := h
    subst h1
    intro hs; exact absurd hs (by decide)
  | otherError e => simp [checkOne] at h

/-- Conversely, no classification other than a 200 response produces status
`"OK"` — except a `ClientError` whose description happens to be exactly
`"OK"`, which is stored verbatim. -/
theorem checkOne_ok_imp_online (oc : ProbeOutcome) (s st : String)
    (h : checkOne oc = .ok (s, st)) (hno : oc ≠ .clientError "OK") :
    st = "OK" → s = "Online" := by
  cases oc with
  | response c =>
    by_cases hc : c = 200
    · simp [checkOne, hc] at h
      obtain ⟨h1, h2⟩ := h
      subst h1
      intro; rfl
    · simp [checkOne, hc] at h
      obtain ⟨h1, h2⟩ := h
      subst h2
      intro hst
      have hl := congrArg String.length hst
      rw [String.length_append] at hl
      have h5 : ("HTTP " : String).length = 5 := by decide
      have h2' : ("OK" : String).length = 2 := by decide
      omega
  | clientError e =>
    simp [checkOne] at h
    obtain ⟨h1, h2⟩ := h
    subst h2
    intro hst
    exact absurd (by rw [hst]) hno
  | timeoutErr =>
    simp [checkOne] at h
    obtain ⟨h1, h2⟩ := h
    subst h2
    intro hst; exact absurd hst (by decide)
  | otherError e => simp [checkOne] at h

/-- C6 counterexample: the two-way invariant `state = "Online" ⟺
status = "OK"` can be violated: a `ClientError` whose description (`str(e)`)
is exactly the string `"OK"` is recorded verbatim (line 98), producing
state `"Offline"` with status `"OK"`. -/
theorem offline_with_status_ok :
    (checkUrls (URLMonitorData.init ["A"] ["http://a"])
        [.clientError "OK"] (fun n => n) 0 5).1.states.getD 0 "" =
      "Offline" ∧
    (checkUrls (URLMonitorData.init ["A"] ["http://a"])
        [.clientError "OK"] (fun n => n) 0 5).1.status.getD 0 "" = "OK" ∧
    ¬((checkUrls (URLMonitorData.init ["A"] ["http://a"])
        [.clientError "OK"] (fun n => n) 0 5).1.states.getD 0 "" =
          "Online" ↔
      (checkUrls (URLMonitorData.init ["A"] ["http://a"])
        [.clientError "OK"] (fun n => n) 0 5).1.status.getD 0 "" = "OK") := by
  decide

/-- C6 amended: at every observable moment of every run (`state`, `status`
are only ever written together, so mid-cycle moments are covered by runs with
smaller final fuel), `state = "Online"` implies `status = "OK"`; the full
equivalence `state = "Online" ⟺ status = "OK"` moreover holds whenever no
network error's description is exactly the string `"OK"` (the one family of
outcomes that produces the pair Offline/"OK"). -/
theorem state_status_consistency (names urls : List String)
    (clock : Nat → Nat) (timers tick : Nat) (cs : List CycleSpec) :
    (∀ j, (runCycles (URLMonitorData.init names urls) timers clock tick
          cs).1.states.getD j "" = "Online" →
        (runCycles (URLMonitorData.init names urls) timers clock tick
          cs).1.status.getD j "" = "OK") ∧
      ((∀ c ∈ cs, ∀ oc ∈ c.ocs, oc ≠ ProbeOutcome.clientError "OK") →
        ∀ j, ((runCycles (URLMonitorData.init names urls) timers clock tick
            cs).1.states.getD j "" = "Online" ↔
          (runCycles (URLMonitorData.init names urls) timers clock tick
            cs).1.status.getD j "" = "OK")) := by
  have hlen0 : (URLMonitorData.init names urls).states.length =
      (URLMonitorData.init names urls).status.length := by
    simp [URLMonitorData.init]
  constructor
  · exact runCycles_pair_preserve (fun s st => s = "Online" → st = "OK") cs
      (URLMonitorData.init names urls) timers clock tick
      (fun _ _ oc _ s st h => checkOne_online_imp oc s st h) hlen0
      (by intro j
          simp only [URLMonitorData.init, getD_replicate_eq_ite]
          split <;> · intro hs; exact absurd hs (by decide))
  · intro hno
    exact runCycles_pair_preserve (fun s st => s = "Online" ↔ st = "OK") cs
      (URLMonitorData.init names urls) timers clock tick
      (fun c hc oc hoc s st h =>
        ⟨checkOne_online_imp oc s st h,
         checkOne_ok_imp_online oc s st h (hno c hc oc hoc)⟩) hlen0
      (by intro j
          simp only [URLMonitorData.init, getD_replicate_eq_ite]
          split <;> · constructor <;> · intro hs; exact absurd hs (by decide))

/-- Witness for `state_status_consistency`: one URL answering 200, after one
full cycle. -/
theorem state_status_consistency_witness :
    ((runCycles (URLMonitorData.init ["A"] ["http://a"]) 0 (fun n => n) 0
        [⟨[.response 200], 5⟩]).1.states.getD 0 "" = "Online" ↔
      (runCycles (URLMonitorData.init ["A"] ["http://a"]) 0 (fun n => n) 0
        [⟨[.response 200], 5⟩]).1.status.getD 0 "" = "OK") :=
  (state_status_consistency ["A"] ["http://a"] (fun n => n) 0 0
    [⟨[.response 200], 5⟩]).2 (by decide) 0

/-! ### C7: last_updated is monotone under a monotone clock -/

/-- Every stored `last_updated` value is the sentinel or a clock reading
already taken. -/
def luInv (d : URLMonitorData) (clock : Nat → Nat) (tick : Nat) : Prop :=
  ∀ j, d.last_updated.getD j 0 = 0 ∨
    ∃ k, k < tick ∧ d.last_updated.getD j 0 = clock k

/-- Through the loop, ticks only advance, the stored-reading invariant is
kept, and each index's `last_updated` never decreases: a completed check
overwrites a sentinel or an older clock reading with the current one. -/
theorem checkUrlsFrom_lu_mono (ocs : List ProbeOutcome)
    (d : URLMonitorData) (i : Nat) (clock : Nat → Nat) (tick fuel : Nat)
    (hmono : ∀ a b, a ≤ b → clock a ≤ clock b)
    (hinv : luInv d clock tick) :
    tick ≤ (checkUrlsFrom d i ocs clock tick fuel).2.1 ∧
      luInv (checkUrlsFrom d i ocs clock tick fuel).1 clock
        (checkUrlsFrom d i ocs clock tick fuel).2.1 ∧
      ∀ j, d.last_updated.getD j 0 ≤
        (checkUrlsFrom d i ocs clock tick fuel).1.last_updated.getD j 0 := by
  induction ocs generalizing d i tick fuel with
  | nil =>
    simp only [checkUrlsFrom]
    exact ⟨Nat.le_refl _, hinv, fun j => Nat.le_refl _⟩
  | cons oc rest ih =>
    cases fuel with
    | zero =>
      simp only [checkUrlsFrom]
      exact ⟨Nat.le_refl _, hinv, fun j => Nat.le_refl _⟩
    | succ f =>
      simp only [checkUrlsFrom]
      cases hoc : checkOne oc with
      | error e => exact ⟨Nat.le_refl _, hinv, fun j => Nat.le_refl _⟩
      | ok p =>
        obtain ⟨s, st⟩ := p
        have hinv' : luInv (d.writeAt i s st (clock tick)) clock
            (tick + 1) := by
          intro j
          simp only [URLMonitorData.writeAt]
          rw [getD_set]
          by_cases hc : i = j ∧ j < d.last_updated.length
          · rw [if_pos hc]
            exact Or.inr ⟨tick, Nat.lt_succ_self tick, rfl⟩
          · rw [if_neg hc]
            rcases hinv j with h | ⟨k, hk, hv⟩
            · exact Or.inl h
            · exact Or.inr ⟨k, Nat.lt_succ_of_lt hk, hv⟩
        obtain ⟨ht, hI, hm⟩ :=
          ih (d.writeAt i s st (clock tick)) (i + 1) (tick + 1) f hinv'
        refine ⟨Nat.le_trans (Nat.le_succ tick) ht, hI, ?_⟩
        intro j
        refine Nat.le_trans ?_ (hm j)
        simp only [URLMonitorData.writeAt]
        rw [getD_set]
        by_cases hc : i = j ∧ j < d.last_updated.length
        · rw [if_pos hc]
          rcases hinv j with h | ⟨k, hk, hv⟩
          · omega
          · rw [hv]
            exact hmono k tick (by omega)
        · rw [if_neg hc]

/-- Lift of `checkUrlsFrom_lu_mono` to whole cycle sequences. -/
theorem runCycles_lu_mono (cs : List CycleSpec) (d : URLMonitorData)
    (timers : Nat) (clock : Nat → Nat) (tick : Nat)
    (hmono : ∀ a b, a ≤ b → clock a ≤ clock b)
    (hinv : luInv d clock tick) :
    tick ≤ (runCycles d timers clock tick cs).2.2 ∧
      luInv (runCycles d timers clock tick cs).1 clock
        (runCycles d timers clock tick cs).2.2 ∧
      ∀ j, d.last_updated.getD j 0 ≤
        (runCycles d timers clock tick cs).1.last_updated.getD j 0 := by
  induction cs generalizing d timers tick with
  | nil =>
    simp only [runCycles]
    exact ⟨Nat.le_refl _, hinv, fun j => Nat.le_refl _⟩
  | cons c cs ih =>
    simp only [runCycles]
    obtain ⟨hdata, htick⟩ :=
      asyncUpdate_data_tick d timers c.ocs clock tick c.fuel
    rw [hdata, htick]
    simp only [checkUrls]
    obtain ⟨ht, hI, hm⟩ :=
      checkUrlsFrom_lu_mono c.ocs d 0 clock tick c.fuel hmono hinv
    obtain ⟨ht', hI', hm'⟩ :=
      ih (checkUrlsFrom d 0 c.ocs clock tick c.fuel).1
        (asyncUpdate d timers c.ocs clock tick c.fuel).2.1
        (checkUrlsFrom d 0 c.ocs clock tick c.fuel).2.1 hI
    exact ⟨by omega, hI', fun j => Nat.le_trans (hm j) (hm' j)⟩

/-- C7: under a non-decreasing clock, each target's `last_updated` is
monotonically non-decreasing across successive completed updates: after any
further cycles are run on top of an earlier run, every index's stored
timestamp is at least what the earlier run left there (the initial sentinel
`datetime.min` being least of all). -/
theorem last_updated_monotone (names urls : List String) (timers : Nat)
    (clock : Nat → Nat) (hmono : ∀ a b, a ≤ b → clock a ≤ clock b)
    (cs₁ cs₂ : List CycleSpec) (j : Nat) :
    (runCycles (URLMonitorData.init names urls) timers clock 0
        cs₁).1.last_updated.getD j 0 ≤
      (runCycles
        (runCycles (URLMonitorData.init names urls) timers clock 0 cs₁).1
        (runCycles (URLMonitorData.init names urls) timers clock 0 cs₁).2.1
        clock
        (runCycles (URLMonitorData.init names urls) timers clock 0 cs₁).2.2
        cs₂).1.last_updated.getD j 0 := by
  have hinv0 : luInv (URLMonitorData.init names urls) clock 0 := by
    intro k
    left
    simp only [URLMonitorData.init, getD_replicate_eq_ite, datetimeMin]
    split <;> rfl
  obtain ⟨-, hI₁, -⟩ := runCycles_lu_mono cs₁
    (URLMonitorData.init names urls) timers clock 0 hmono hinv0
  obtain ⟨-, -, hm⟩ := runCycles_lu_mono cs₂
    (runCycles (URLMonitorData.init names urls) timers clock 0 cs₁).1
    (runCycles (URLMonitorData.init names urls) timers clock 0 cs₁).2.1
    clock
    (runCycles (URLMonitorData.init names urls) timers clock 0 cs₁).2.2
    hmono hI₁
  exact hm j

/-- Witness for `last_updated_monotone`: the clock `n + 3`, one completed
cycle, then one timed-out cycle. -/
theorem last_updated_monotone_witness :
    (runCycles (URLMonitorData.init ["A"] ["http://a"]) 0 (fun n => n + 3) 0
        [⟨[.response 200], 9⟩]).1.last_updated.getD 0 0 ≤
      (runCycles
        (runCycles (URLMonitorData.init ["A"] ["http://a"]) 0
          (fun n => n + 3) 0 [⟨[.response 200], 9⟩]).1
        (runCycles (URLMonitorData.init ["A"] ["http://a"]) 0
          (fun n => n + 3) 0 [⟨[.response 200], 9⟩]).2.1
        (fun n => n + 3)
        (runCycles (URLMonitorData.init ["A"] ["http://a"]) 0
          (fun n => n + 3) 0 [⟨[.response 200], 9⟩]).2.2
        [⟨[.timeoutErr], 0⟩]).1.last_updated.getD 0 0 :=
  last_updated_monotone ["A"] ["http://a"] 0 (fun n => n + 3)
    (fun _ _ h => Nat.add_le_add_right h 3) [⟨[.response 200], 9⟩]
    [⟨[.timeoutErr], 0⟩] 0

/-! ### C8: "never" marker before the first check -/

/-- The loop never touches the configured targets. -/
theorem checkUrlsFrom_config (ocs : List ProbeOutcome) (d : URLMonitorData)
    (i : Nat) (clock : Nat → Nat) (tick fuel : Nat) :
    (checkUrlsFrom d i ocs clock tick fuel).1.urls = d.urls ∧
      (checkUrlsFrom d i ocs clock tick fuel).1.names = d.names := by
  induction ocs generalizing d i tick fuel with
  | nil => simp [checkUrlsFrom]
  | cons oc rest ih =>
    cases fuel with
    | zero => simp [checkUrlsFrom]
    | succ f =>
      simp only [checkUrlsFrom]
      cases hoc : checkOne oc with
      | ok p =>
        obtain ⟨s, st⟩ := p
        simpa [URLMonitorData.writeAt] using
          ih (d.writeAt i s st (clock tick)) (i + 1) (tick + 1) f
      | error e => simp

/-- C8: before a target's first completed check, the accessor reports
`Last Updated` as the rendering of the sentinel `datetime.min` — the module's
fixed "never checked" marker, not the time of any completed check (all check
times are strictly later than the sentinel) — and after a completed check it
reports the rendering of exactly that check's clock reading. -/
theorem never_marker_then_check_timestamp (names urls : List String)
    (i : Nat) (hi : i < urls.length) (clock : Nat → Nat) (tick fuel : Nat)
    (ocs : List ProbeOutcome) (hlen : ocs.length = urls.length)
    (hok : ∀ oc ∈ ocs, ∃ p, checkOne oc = .ok p)
    (hfuel : ocs.length ≤ fuel) (hpos : 0 < clock (tick + i)) :
    URLMonitor.extra_state_attributes (URLMonitorData.init names urls) i =
      [("URL", urls.getD i ""), ("Status", ""),
       ("Last Updated", isoformat datetimeMin)] ∧
    (URLMonitorData.init names urls).last_updated.getD i datetimeMin =
      datetimeMin ∧
    (URLMonitor.extra_state_attributes
        (checkUrls (URLMonitorData.init names urls) ocs clock tick fuel).1
        i).getD 2 ("", "") =
      ("Last Updated", isoformat (clock (tick + i))) ∧
    (checkUrls (URLMonitorData.init names urls) ocs clock tick
        fuel).1.last_updated.getD i datetimeMin ≠ datetimeMin := by
  have hwrites := checkUrlsFrom_writes ocs (URLMonitorData.init names urls)
    0 clock tick fuel hfuel hok
    (by simp [URLMonitorData.init]; omega) i (by omega)
  obtain ⟨s, st, hoc, h1, h2, h3⟩ := hwrites
  rw [Nat.zero_add] at h3
  refine ⟨?_, ?_, ?_, ?_⟩
  · simp [URLMonitor.extra_state_attributes, URLMonitorData.init,
      getD_replicate_eq_ite, hi, datetimeMin]
  · simp [URLMonitorData.init, getD_replicate_eq_ite, hi, datetimeMin]
  · show ("Last Updated",
      isoformat ((checkUrls (URLMonitorData.init names urls) ocs clock tick
        fuel).1.last_updated.getD i datetimeMin)) = _
    have : (checkUrls (URLMonitorData.init names urls) ocs clock tick
        fuel).1.last_updated.getD i datetimeMin = clock (tick + i) := h3
    rw [this]
  · show (checkUrls (URLMonitorData.init names urls) ocs clock tick
        fuel).1.last_updated.getD i datetimeMin ≠ datetimeMin
    have : (checkUrls (URLMonitorData.init names urls) ocs clock tick
        fuel).1.last_updated.getD i datetimeMin = clock (tick + i) := h3
    rw [this]
    simp only [datetimeMin]
    omega

/-- Witness for `never_marker_then_check_timestamp`: one URL answering 200,
checked at clock value 42. -/
theorem never_marker_then_check_timestamp_witness :
    URLMonitor.extra_state_attributes
        (URLMonitorData.init ["A"] ["http://a"]) 0 =
      [("URL", ["http://a"].getD 0 ""), ("Status", ""),
       ("Last Updated", isoformat datetimeMin)] ∧
    (URLMonitorData.init ["A"] ["http://a"]).last_updated.getD 0
        datetimeMin = datetimeMin ∧
    (URLMonitor.extra_state_attributes
        (checkUrls (URLMonitorData.init ["A"] ["http://a"])
          [.response 200] (fun _ => 42) 0 1).1 0).getD 2 ("", "") =
      ("Last Updated", isoformat ((fun _ => 42) (0 + 0))) ∧
    (checkUrls (URLMonitorData.init ["A"] ["http://a"]) [.response 200]
        (fun _ => 42) 0 1).1.last_updated.getD 0 datetimeMin ≠
      datetimeMin :=
  never_marker_then_check_timestamp ["A"] ["http://a"] 0 (by decide)
    (fun _ => 42) 0 1 [.response 200] (by decide)
    (by intro oc hoc
        simp only [List.mem_cons, List.not_mem_nil, or_false] at hoc
        subst hoc
        exact ⟨_, rfl⟩)
    (by decide) (by decide)

end URLMon
